import Mathlib

/-!
Verification of the pad-geometry core of the terrain-pads extension
(src/src/app.tsx). The two core functions, `generateRandomId` and
`generateRandomPad`, are shallowly embedded over exact rationals, with
the ambient random source made explicit: every call to the platform's
uniform-[0,1) generator becomes an injected rational draw.
-/

namespace TerrainPads

/-- A point in terrain space: type `Position` of app.tsx. -/
structure Position where
  x : ℚ
  y : ℚ
  z : ℚ
  deriving DecidableEq

/-- Axis-aligned bounding volume: type `Bbox` of app.tsx. -/
structure Bbox where
  min : Position
  max : Position
  deriving DecidableEq

/-- A planar footprint coordinate, as in the `coordinates` entries built by
`generateRandomPad`. -/
structure Coord2D where
  x : ℚ
  y : ℚ
  deriving DecidableEq

/-- The pad record returned by `generateRandomPad` (the fields of
`TerrainPadInput` that the function populates). -/
structure TerrainPadInput where
  id : String
  coordinates : List Coord2D
  elevation : ℚ
  slopePercentage : ℤ
  applyGrade : Bool
  deriving DecidableEq

/-- The alphabet string `chars` of `generateRandomId`. -/
def idChars : String := "abcdefghijklmnopqrstuvwxyz0123456789"

/-- JavaScript `String.prototype.charAt`: the one-character string at the
given index, or the empty string when the index is out of range. -/
def charAt (s : String) (i : ℤ) : String :=
  if 0 ≤ i ∧ i < (s.data.length : ℤ) then String.mk [s.data.getD i.toNat 'a']
  else ""

/-- `generateRandomId` of app.tsx: 13 iterations, each appending
`chars.charAt(Math.floor(Math.random() * chars.length))`; the i-th call to
`Math.random()` is the injected draw `draws i`. -/
def generateRandomId (draws : ℕ → ℚ) : String :=
  (List.range 13).foldl
    (fun result i => result ++ charAt idChars ⌊draws i * (idChars.data.length : ℚ)⌋)
    ""

/-- The local `xRange = bbox.max.x - bbox.min.x` of `generateRandomPad`. -/
def xRange (bbox : Bbox) : ℚ := bbox.max.x - bbox.min.x

/-- The local `yRange = bbox.max.y - bbox.min.y` of `generateRandomPad`. -/
def yRange (bbox : Bbox) : ℚ := bbox.max.y - bbox.min.y

/-- The local `zRange = bbox.max.z - bbox.min.z` of `generateRandomPad`. -/
def zRange (bbox : Bbox) : ℚ := bbox.max.z - bbox.min.z

/-- The constant `margin = 0.1` of `generateRandomPad`. -/
def margin : ℚ := 0.1

/-- The local `centerX = bbox.min.x + xRange * margin + Math.random() * xRange * (1 - 2 * margin)`
of `generateRandomPad`, with the draw injected as `u1`. -/
def padCenterX (bbox : Bbox) (u1 : ℚ) : ℚ :=
  bbox.min.x + xRange bbox * margin + u1 * xRange bbox * (1 - 2 * margin)

/-- The local `centerY` of `generateRandomPad`, with the draw injected as `u2`. -/
def padCenterY (bbox : Bbox) (u2 : ℚ) : ℚ :=
  bbox.min.y + yRange bbox * margin + u2 * yRange bbox * (1 - 2 * margin)

/-- The local `maxSize = Math.min(xRange, yRange) * 0.2` of `generateRandomPad`. -/
def padMaxSize (bbox : Bbox) : ℚ := min (xRange bbox) (yRange bbox) * 0.2

/-- The local `size = Math.max(10, Math.min(50, maxSize * (0.2 + Math.random() * 0.8)))`
of `generateRandomPad`, with the draw injected as `u3`. -/
def padSize (bbox : Bbox) (u3 : ℚ) : ℚ :=
  max 10 (min 50 (padMaxSize bbox * (0.2 + u3 * 0.8)))

/-- The local `elevation = bbox.min.z + Math.random() * zRange` of
`generateRandomPad`, with the draw injected as `u4`. -/
def padElevation (bbox : Bbox) (u4 : ℚ) : ℚ := bbox.min.z + u4 * zRange bbox

/-- The local `slopePercentage = Math.floor(10 + Math.random() * 100)` of
`generateRandomPad`, with the draw injected as `u5`. -/
def padSlopePercentage (u5 : ℚ) : ℤ := ⌊(10 : ℚ) + u5 * 100⌋

/-- The uniform-[0,1) draws consumed by one run of `generateRandomPad`:
the five direct `Math.random()` calls, in source order, plus the stream
consumed by the nested `generateRandomId()` call. -/
structure Draws where
  u1 : ℚ
  u2 : ℚ
  u3 : ℚ
  u4 : ℚ
  u5 : ℚ
  idDraws : ℕ → ℚ

/-- `generateRandomPad` of app.tsx with the random source injected. -/
def generateRandomPad (bbox : Bbox) (d : Draws) : TerrainPadInput :=
  let centerX := padCenterX bbox d.u1
  let centerY := padCenterY bbox d.u2
  let size := padSize bbox d.u3
  let halfSize := size / 2
  { id := generateRandomId d.idDraws
    coordinates := [
      ⟨centerX - halfSize, centerY - halfSize⟩,
      ⟨centerX + halfSize, centerY - halfSize⟩,
      ⟨centerX + halfSize, centerY + halfSize⟩,
      ⟨centerX - halfSize, centerY + halfSize⟩]
    elevation := padElevation bbox d.u4
    slopePercentage := padSlopePercentage d.u5
    applyGrade := true }

/-- Modelled from the spec, section 4.2 step 3: clamp a value into the
closed interval from `lo` to `hi`. -/
def clamp (v lo hi : ℚ) : ℚ := min hi (max lo v)

/-- Modelled from the spec, section 4.2 steps 1 to 8: the reference pad
algorithm, written from the spec's formulas for centers, size, elevation,
slope, corner order, grading flag and identifier. Used only to compare
with `generateRandomPad`. -/
def specGeneratePad (bbox : Bbox) (d : Draws) : TerrainPadInput :=
  let xr := bbox.max.x - bbox.min.x
  let yr := bbox.max.y - bbox.min.y
  let zr := bbox.max.z - bbox.min.z
  let centerX := bbox.min.x + 0.1 * xr + d.u1 * xr * 0.8
  let centerY := bbox.min.y + 0.1 * yr + d.u2 * yr * 0.8
  let maxSize := min xr yr * 0.2
  let size := clamp (maxSize * (0.2 + d.u3 * 0.8)) 10 50
  let halfSize := size / 2
  { id := generateRandomId d.idDraws
    coordinates := [
      ⟨centerX - halfSize, centerY - halfSize⟩,
      ⟨centerX + halfSize, centerY - halfSize⟩,
      ⟨centerX + halfSize, centerY + halfSize⟩,
      ⟨centerX - halfSize, centerY + halfSize⟩]
    elevation := bbox.min.z + d.u4 * zr
    slopePercentage := ⌊(10 : ℚ) + d.u5 * 100⌋
    applyGrade := true }

/-- Membership in the half-open unit interval, the range of one call to
the platform's uniform random source. -/
def unitInterval01 (u : ℚ) : Prop := 0 ≤ u ∧ u < 1

/-- All draws consumed by one run of `generateRandomPad` lie in [0,1). -/
def ValidDraws (d : Draws) : Prop :=
  unitInterval01 d.u1 ∧ unitInterval01 d.u2 ∧ unitInterval01 d.u3 ∧
  unitInterval01 d.u4 ∧ unitInterval01 d.u5 ∧ ∀ i, unitInterval01 (d.idDraws i)

/-- A concrete 100 by 100 by 1 bounding box based at the origin. -/
def cexBbox : Bbox := ⟨⟨0, 0, 0⟩, ⟨100, 100, 1⟩⟩

/-- A degenerate bounding box: zero x-range and zero y-range. -/
def cexBboxDegen : Bbox := ⟨⟨0, 0, 0⟩, ⟨0, 0, 2⟩⟩

/-- A flat bounding box: zero z-range. -/
def cexBboxFlatZ : Bbox := ⟨⟨0, 0, 5⟩, ⟨10, 10, 5⟩⟩

/-- The all-zero draw assignment. -/
def cexDraws : Draws := ⟨0, 0, 0, 0, 0, fun _ => 0⟩

/-- The all-zero draw assignment is a valid uniform-[0,1) assignment. -/
lemma cexDraws_valid : ValidDraws cexDraws := by
  refine ⟨⟨?_, ?_⟩, ⟨?_, ?_⟩, ⟨?_, ?_⟩, ⟨?_, ?_⟩, ⟨?_, ?_⟩, fun i => ⟨?_, ?_⟩⟩ <;>
    norm_num [cexDraws]

/-- The identifier alphabet has 36 characters. -/
lemma idChars_data_length : idChars.data.length = 36 := rfl

/-- A floored scaled draw is a valid index into the identifier alphabet. -/
lemma floor_draw_bounds (u : ℚ) (h0 : 0 ≤ u) (h1 : u < 1) :
    0 ≤ ⌊u * (idChars.data.length : ℚ)⌋ ∧
    ⌊u * (idChars.data.length : ℚ)⌋ < (idChars.data.length : ℤ) := by
  rw [idChars_data_length]
  constructor
  · exact Int.floor_nonneg.mpr (by positivity)
  · rw [Int.floor_lt]
    push_cast
    nlinarith

/-- On an in-range index, `charAt` yields exactly the character at that
index. -/
lemma charAt_of_valid (s : String) (i : ℤ) (h0 : 0 ≤ i)
    (h1 : i < (s.data.length : ℤ)) :
    (charAt s i).data = [s.data.getD i.toNat 'a'] := by
  simp only [charAt, if_pos (And.intro h0 h1)]

/-- Unrolling the identifier loop: the characters accumulated by the fold
are the alphabet characters selected by the draws. -/
lemma generateRandomId_foldl (draws : ℕ → ℚ) (l : List ℕ) (acc : String)
    (h : ∀ i ∈ l, 0 ≤ draws i ∧ draws i < 1) :
    (l.foldl
      (fun result i =>
        result ++ charAt idChars ⌊draws i * (idChars.data.length : ℚ)⌋) acc).data =
      acc.data ++ (l.map
        (fun i => idChars.data.getD (⌊draws i * (idChars.data.length : ℚ)⌋).toNat 'a')) := by
  induction l generalizing acc with
  | nil => simp
  | cons a t ih =>
    have ha := h a (List.mem_cons_self a t)
    obtain ⟨hb0, hb1⟩ := floor_draw_bounds (draws a) ha.1 ha.2
    rw [List.foldl_cons, ih _ (fun i hi => h i (List.mem_cons_of_mem a hi)),
      String.data_append, charAt_of_valid idChars _ hb0 hb1]
    simp

/-- Claim C1, as stated, is false on the code: on the 100 by 100 by 1 box
with all draws zero, the bottom-left footprint corner has x = 5, outside
the inset interval [10, 90], even though all ranges are positive and all
draws lie in [0,1). Only the pad center is confined to the inset band;
corners protrude by half the side length. -/
theorem C1_counterexample :
    0 < xRange cexBbox ∧ 0 < yRange cexBbox ∧ 0 < zRange cexBbox ∧
    ValidDraws cexDraws ∧
    ¬ (∀ c ∈ (generateRandomPad cexBbox cexDraws).coordinates,
        cexBbox.min.x + 0.1 * xRange cexBbox ≤ c.x ∧
        c.x ≤ cexBbox.max.x - 0.1 * xRange cexBbox ∧
        cexBbox.min.y + 0.1 * yRange cexBbox ≤ c.y ∧
        c.y ≤ cexBbox.max.y - 0.1 * yRange cexBbox) := by
  refine ⟨by norm_num [xRange, cexBbox], by norm_num [yRange, cexBbox],
    by norm_num [zRange, cexBbox], cexDraws_valid, ?_⟩
  intro h
  have h5 := h ⟨5, 5⟩
  simp only [generateRandomPad, padCenterX, padCenterY, padSize, padMaxSize,
    xRange, yRange, margin, cexBbox, cexDraws] at h5
  norm_num at h5

/-- Claim C1 amended: for every BoundingBox with strictly positive x, y and
z ranges and all draws in [0,1), the pad center lies within the inset
interval (closed below, open above) on each axis, and every footprint
coordinate lies within the inset interval widened by half the side length
on each side. -/
theorem C1_center_inset (bbox : Bbox) (d : Draws)
    (hx : 0 < xRange bbox) (hy : 0 < yRange bbox) (hz : 0 < zRange bbox)
    (hd : ValidDraws d) :
    (bbox.min.x + 0.1 * xRange bbox ≤ padCenterX bbox d.u1 ∧
     padCenterX bbox d.u1 < bbox.max.x - 0.1 * xRange bbox) ∧
    (bbox.min.y + 0.1 * yRange bbox ≤ padCenterY bbox d.u2 ∧
     padCenterY bbox d.u2 < bbox.max.y - 0.1 * yRange bbox) ∧
    ∀ c ∈ (generateRandomPad bbox d).coordinates,
      bbox.min.x + 0.1 * xRange bbox - padSize bbox d.u3 / 2 ≤ c.x ∧
      c.x < bbox.max.x - 0.1 * xRange bbox + padSize bbox d.u3 / 2 ∧
      bbox.min.y + 0.1 * yRange bbox - padSize bbox d.u3 / 2 ≤ c.y ∧
      c.y < bbox.max.y - 0.1 * yRange bbox + padSize bbox d.u3 / 2 := by
  obtain ⟨⟨h1, h1l⟩, ⟨h2, h2l⟩, -, -, -, -⟩ := hd
  have hxe : xRange bbox = bbox.max.x - bbox.min.x := rfl
  have hye : yRange bbox = bbox.max.y - bbox.min.y := rfl
  have hcxl : bbox.min.x + 0.1 * xRange bbox ≤ padCenterX bbox d.u1 := by
    simp only [padCenterX, margin]
    nlinarith [mul_nonneg h1 hx.le]
  have hcxu : padCenterX bbox d.u1 < bbox.max.x - 0.1 * xRange bbox := by
    simp only [padCenterX, margin]
    nlinarith [mul_pos (by linarith : (0 : ℚ) < 1 - d.u1) hx]
  have hcyl : bbox.min.y + 0.1 * yRange bbox ≤ padCenterY bbox d.u2 := by
    simp only [padCenterY, margin]
    nlinarith [mul_nonneg h2 hy.le]
  have hcyu : padCenterY bbox d.u2 < bbox.max.y - 0.1 * yRange bbox := by
    simp only [padCenterY, margin]
    nlinarith [mul_pos (by linarith : (0 : ℚ) < 1 - d.u2) hy]
  have hs10 : (10 : ℚ) ≤ padSize bbox d.u3 := le_max_left _ _
  refine ⟨⟨hcxl, hcxu⟩, ⟨hcyl, hcyu⟩, ?_⟩
  intro c hc
  simp only [generateRandomPad, List.mem_cons, List.not_mem_nil, or_false] at hc
  rcases hc with rfl | rfl | rfl | rfl <;> refine ⟨?_, ?_, ?_, ?_⟩ <;>
    dsimp only <;> linarith

/-- Witness for the amended claim C1 on the 100 by 100 by 1 box with all
draws zero. -/
theorem C1_center_inset_witness :
    (cexBbox.min.x + 0.1 * xRange cexBbox ≤ padCenterX cexBbox cexDraws.u1 ∧
     padCenterX cexBbox cexDraws.u1 < cexBbox.max.x - 0.1 * xRange cexBbox) ∧
    (cexBbox.min.y + 0.1 * yRange cexBbox ≤ padCenterY cexBbox cexDraws.u2 ∧
     padCenterY cexBbox cexDraws.u2 < cexBbox.max.y - 0.1 * yRange cexBbox) ∧
    ∀ c ∈ (generateRandomPad cexBbox cexDraws).coordinates,
      cexBbox.min.x + 0.1 * xRange cexBbox - padSize cexBbox cexDraws.u3 / 2 ≤ c.x ∧
      c.x < cexBbox.max.x - 0.1 * xRange cexBbox + padSize cexBbox cexDraws.u3 / 2 ∧
      cexBbox.min.y + 0.1 * yRange cexBbox - padSize cexBbox cexDraws.u3 / 2 ≤ c.y ∧
      c.y < cexBbox.max.y - 0.1 * yRange cexBbox + padSize cexBbox cexDraws.u3 / 2 :=
  C1_center_inset cexBbox cexDraws (by norm_num [xRange, cexBbox])
    (by norm_num [yRange, cexBbox]) (by norm_num [zRange, cexBbox]) cexDraws_valid

/-- Claim C2: for every BoundingBox with min ≤ max componentwise and all
draws in [0,1), the side length lies in [10, 50] and the 4 footprint
corners are exactly the center offset by plus or minus half the side
length on each axis, forming an axis-aligned square of that side length
centered at the chosen center. -/
theorem C2_size_square (bbox : Bbox) (d : Draws)
    (hx : bbox.min.x ≤ bbox.max.x) (hy : bbox.min.y ≤ bbox.max.y)
    (hz : bbox.min.z ≤ bbox.max.z) (hd : ValidDraws d) :
    (10 ≤ padSize bbox d.u3 ∧ padSize bbox d.u3 ≤ 50) ∧
    (generateRandomPad bbox d).coordinates =
      [⟨padCenterX bbox d.u1 - padSize bbox d.u3 / 2,
        padCenterY bbox d.u2 - padSize bbox d.u3 / 2⟩,
       ⟨padCenterX bbox d.u1 + padSize bbox d.u3 / 2,
        padCenterY bbox d.u2 - padSize bbox d.u3 / 2⟩,
       ⟨padCenterX bbox d.u1 + padSize bbox d.u3 / 2,
        padCenterY bbox d.u2 + padSize bbox d.u3 / 2⟩,
       ⟨padCenterX bbox d.u1 - padSize bbox d.u3 / 2,
        padCenterY bbox d.u2 + padSize bbox d.u3 / 2⟩] :=
  ⟨⟨le_max_left _ _, max_le (by norm_num) (min_le_left _ _)⟩, rfl⟩

/-- Witness for claim C2 on the 100 by 100 by 1 box with all draws zero. -/
theorem C2_size_square_witness :
    (10 ≤ padSize cexBbox cexDraws.u3 ∧ padSize cexBbox cexDraws.u3 ≤ 50) ∧
    (generateRandomPad cexBbox cexDraws).coordinates =
      [⟨padCenterX cexBbox cexDraws.u1 - padSize cexBbox cexDraws.u3 / 2,
        padCenterY cexBbox cexDraws.u2 - padSize cexBbox cexDraws.u3 / 2⟩,
       ⟨padCenterX cexBbox cexDraws.u1 + padSize cexBbox cexDraws.u3 / 2,
        padCenterY cexBbox cexDraws.u2 - padSize cexBbox cexDraws.u3 / 2⟩,
       ⟨padCenterX cexBbox cexDraws.u1 + padSize cexBbox cexDraws.u3 / 2,
        padCenterY cexBbox cexDraws.u2 + padSize cexBbox cexDraws.u3 / 2⟩,
       ⟨padCenterX cexBbox cexDraws.u1 - padSize cexBbox cexDraws.u3 / 2,
        padCenterY cexBbox cexDraws.u2 + padSize cexBbox cexDraws.u3 / 2⟩] :=
  C2_size_square cexBbox cexDraws (by norm_num [cexBbox]) (by norm_num [cexBbox])
    (by norm_num [cexBbox]) cexDraws_valid

/-- Claim C3, as stated, is false on the code: on a box with zero z-range
the interval [min.z, max.z) is empty, yet the code returns
elevation = min.z. The claim explicitly covers degenerate boxes with zero
z-range, so this concrete box with min ≤ max and all draws in [0,1)
refutes it. -/
theorem C3_counterexample :
    cexBboxFlatZ.min.z ≤ cexBboxFlatZ.max.z ∧ ValidDraws cexDraws ∧
    ¬ (cexBboxFlatZ.min.z ≤ (generateRandomPad cexBboxFlatZ cexDraws).elevation ∧
       (generateRandomPad cexBboxFlatZ cexDraws).elevation < cexBboxFlatZ.max.z) := by
  refine ⟨by norm_num [cexBboxFlatZ], cexDraws_valid, ?_⟩
  intro h
  simp only [generateRandomPad, padElevation, zRange, cexBboxFlatZ, cexDraws] at h
  norm_num at h

/-- Claim C3 amended: for every BoundingBox with min.z ≤ max.z and all
draws in [0,1), the elevation lies in the closed interval [min.z, max.z],
and when the z-range is strictly positive it lies in the half-open
interval [min.z, max.z). -/
theorem C3_elevation_range (bbox : Bbox) (d : Draws)
    (hz : bbox.min.z ≤ bbox.max.z) (hd : ValidDraws d) :
    bbox.min.z ≤ (generateRandomPad bbox d).elevation ∧
    (generateRandomPad bbox d).elevation ≤ bbox.max.z ∧
    (bbox.min.z < bbox.max.z →
      (generateRandomPad bbox d).elevation < bbox.max.z) := by
  obtain ⟨-, -, -, ⟨h4, h4l⟩, -, -⟩ := hd
  have he : (generateRandomPad bbox d).elevation =
      bbox.min.z + d.u4 * (bbox.max.z - bbox.min.z) := rfl
  rw [he]
  refine ⟨?_, ?_, ?_⟩
  · nlinarith [mul_nonneg h4 (by linarith : (0 : ℚ) ≤ bbox.max.z - bbox.min.z)]
  · nlinarith [mul_nonneg (by linarith : (0 : ℚ) ≤ 1 - d.u4)
      (by linarith : (0 : ℚ) ≤ bbox.max.z - bbox.min.z)]
  · intro hlt
    nlinarith [mul_pos (by linarith : (0 : ℚ) < 1 - d.u4)
      (by linarith : (0 : ℚ) < bbox.max.z - bbox.min.z)]

/-- Witness for the amended claim C3 on the 100 by 100 by 1 box with all
draws zero. -/
theorem C3_elevation_range_witness :
    cexBbox.min.z ≤ (generateRandomPad cexBbox cexDraws).elevation ∧
    (generateRandomPad cexBbox cexDraws).elevation ≤ cexBbox.max.z ∧
    (cexBbox.min.z < cexBbox.max.z →
      (generateRandomPad cexBbox cexDraws).elevation < cexBbox.max.z) :=
  C3_elevation_range cexBbox cexDraws (by norm_num [cexBbox]) cexDraws_valid

/-- Claim C4: for every BoundingBox with min ≤ max componentwise and all
draws in [0,1), the slopePercentage is an integer in [10, 110), computed
as the floor of 10 plus 100 times the fifth draw. -/
theorem C4_slope (bbox : Bbox) (d : Draws)
    (hx : bbox.min.x ≤ bbox.max.x) (hy : bbox.min.y ≤ bbox.max.y)
    (hz : bbox.min.z ≤ bbox.max.z) (hd : ValidDraws d) :
    10 ≤ (generateRandomPad bbox d).slopePercentage ∧
    (generateRandomPad bbox d).slopePercentage < 110 ∧
    (generateRandomPad bbox d).slopePercentage = ⌊(10 : ℚ) + d.u5 * 100⌋ := by
  obtain ⟨-, -, -, -, ⟨h5, h5l⟩, -⟩ := hd
  refine ⟨?_, ?_, rfl⟩
  · rw [show (generateRandomPad bbox d).slopePercentage
        = ⌊(10 : ℚ) + d.u5 * 100⌋ from rfl]
    rw [Int.le_floor]
    push_cast
    nlinarith
  · rw [show (generateRandomPad bbox d).slopePercentage
        = ⌊(10 : ℚ) + d.u5 * 100⌋ from rfl]
    rw [Int.floor_lt]
    push_cast
    nlinarith

/-- Witness for claim C4 on the 100 by 100 by 1 box with all draws zero. -/
theorem C4_slope_witness :
    10 ≤ (generateRandomPad cexBbox cexDraws).slopePercentage ∧
    (generateRandomPad cexBbox cexDraws).slopePercentage < 110 ∧
    (generateRandomPad cexBbox cexDraws).slopePercentage =
      ⌊(10 : ℚ) + cexDraws.u5 * 100⌋ :=
  C4_slope cexBbox cexDraws (by norm_num [cexBbox]) (by norm_num [cexBbox])
    (by norm_num [cexBbox]) cexDraws_valid

/-- Claim C5: for all draws in [0,1), `generateRandomId` returns a string
of exactly 13 characters, each drawn from the 36-character alphabet of
lowercase letters and digits. -/
theorem C5_id_shape (draws : ℕ → ℚ)
    (h : ∀ i, 0 ≤ draws i ∧ draws i < 1) :
    (generateRandomId draws).length = 13 ∧
    ∀ ch ∈ (generateRandomId draws).data, ch ∈ idChars.data := by
  have hfold := generateRandomId_foldl draws (List.range 13) ""
    (fun i _ => h i)
  constructor
  · show (generateRandomId draws).data.length = 13
    rw [generateRandomId, hfold]
    simp
  · intro ch hch
    rw [generateRandomId, hfold] at hch
    simp only [String.data, List.nil_append, List.mem_map, List.mem_range] at hch
    obtain ⟨i, -, rfl⟩ := hch
    obtain ⟨hb0, hb1⟩ := floor_draw_bounds (draws i) (h i).1 (h i).2
    have hlt : (⌊draws i * (idChars.data.length : ℚ)⌋).toNat < idChars.data.length := by
      omega
    rw [List.getD_eq_getElem idChars.data 'a' hlt]
    exact List.getElem_mem hlt

/-- Witness for claim C5 with all draws zero. -/
theorem C5_id_shape_witness :
    (generateRandomId (fun _ => 0)).length = 13 ∧
    ∀ ch ∈ (generateRandomId (fun _ => 0)).data, ch ∈ idChars.data :=
  C5_id_shape (fun _ => 0) (fun i => by norm_num)

/-- Claim C6: on a degenerate BoundingBox with zero x-range and zero
y-range and all draws in [0,1), the computed maxSize is 0 and the side
length clamps to exactly the floor value 10, so the footprint corners sit
5 units from the center on each axis. -/
theorem C6_degenerate (bbox : Bbox) (d : Draws)
    (hx : xRange bbox = 0) (hy : yRange bbox = 0) (hd : ValidDraws d) :
    padMaxSize bbox = 0 ∧ padSize bbox d.u3 = 10 ∧
    (generateRandomPad bbox d).coordinates =
      [⟨padCenterX bbox d.u1 - 5, padCenterY bbox d.u2 - 5⟩,
       ⟨padCenterX bbox d.u1 + 5, padCenterY bbox d.u2 - 5⟩,
       ⟨padCenterX bbox d.u1 + 5, padCenterY bbox d.u2 + 5⟩,
       ⟨padCenterX bbox d.u1 - 5, padCenterY bbox d.u2 + 5⟩] := by
  have hms : padMaxSize bbox = 0 := by
    simp [padMaxSize, hx, hy]
  have hs : padSize bbox d.u3 = 10 := by
    simp only [padSize, hms, zero_mul]
    norm_num
  refine ⟨hms, hs, ?_⟩
  simp only [generateRandomPad, hs]
  norm_num

/-- Witness for claim C6 on the degenerate box with zero x and y ranges
and all draws zero. -/
theorem C6_degenerate_witness :
    padMaxSize cexBboxDegen = 0 ∧ padSize cexBboxDegen cexDraws.u3 = 10 ∧
    (generateRandomPad cexBboxDegen cexDraws).coordinates =
      [⟨padCenterX cexBboxDegen cexDraws.u1 - 5, padCenterY cexBboxDegen cexDraws.u2 - 5⟩,
       ⟨padCenterX cexBboxDegen cexDraws.u1 + 5, padCenterY cexBboxDegen cexDraws.u2 - 5⟩,
       ⟨padCenterX cexBboxDegen cexDraws.u1 + 5, padCenterY cexBboxDegen cexDraws.u2 + 5⟩,
       ⟨padCenterX cexBboxDegen cexDraws.u1 - 5, padCenterY cexBboxDegen cexDraws.u2 + 5⟩] :=
  C6_degenerate cexBboxDegen cexDraws (by norm_num [xRange, cexBboxDegen])
    (by norm_num [yRange, cexBboxDegen]) cexDraws_valid

/-- Claim C7: for every BoundingBox with min ≤ max componentwise and all
draws in [0,1), the footprint corners appear in exactly the fixed order
bottom-left, bottom-right, top-right, top-left relative to the chosen
center. -/
theorem C7_corner_order (bbox : Bbox) (d : Draws)
    (hx : bbox.min.x ≤ bbox.max.x) (hy : bbox.min.y ≤ bbox.max.y)
    (hz : bbox.min.z ≤ bbox.max.z) (hd : ValidDraws d) :
    (generateRandomPad bbox d).coordinates =
      [⟨padCenterX bbox d.u1 - padSize bbox d.u3 / 2,
        padCenterY bbox d.u2 - padSize bbox d.u3 / 2⟩,
       ⟨padCenterX bbox d.u1 + padSize bbox d.u3 / 2,
        padCenterY bbox d.u2 - padSize bbox d.u3 / 2⟩,
       ⟨padCenterX bbox d.u1 + padSize bbox d.u3 / 2,
        padCenterY bbox d.u2 + padSize bbox d.u3 / 2⟩,
       ⟨padCenterX bbox d.u1 - padSize bbox d.u3 / 2,
        padCenterY bbox d.u2 + padSize bbox d.u3 / 2⟩] := rfl

/-- Witness for claim C7 on the 100 by 100 by 1 box with all draws zero. -/
theorem C7_corner_order_witness :
    (generateRandomPad cexBbox cexDraws).coordinates =
      [⟨padCenterX cexBbox cexDraws.u1 - padSize cexBbox cexDraws.u3 / 2,
        padCenterY cexBbox cexDraws.u2 - padSize cexBbox cexDraws.u3 / 2⟩,
       ⟨padCenterX cexBbox cexDraws.u1 + padSize cexBbox cexDraws.u3 / 2,
        padCenterY cexBbox cexDraws.u2 - padSize cexBbox cexDraws.u3 / 2⟩,
       ⟨padCenterX cexBbox cexDraws.u1 + padSize cexBbox cexDraws.u3 / 2,
        padCenterY cexBbox cexDraws.u2 + padSize cexBbox cexDraws.u3 / 2⟩,
       ⟨padCenterX cexBbox cexDraws.u1 - padSize cexBbox cexDraws.u3 / 2,
        padCenterY cexBbox cexDraws.u2 + padSize cexBbox cexDraws.u3 / 2⟩] :=
  C7_corner_order cexBbox cexDraws (by norm_num [cexBbox]) (by norm_num [cexBbox])
    (by norm_num [cexBbox]) cexDraws_valid

/-- Claim C8: with the draws made explicit, `generateRandomPad` coincides
with the reference algorithm of spec section 4.2 on every BoundingBox and
every draw assignment. -/
theorem C8_refinement (bbox : Bbox) (d : Draws) :
    generateRandomPad bbox d = specGeneratePad bbox d := by
  have hcx : padCenterX bbox d.u1 =
      bbox.min.x + 0.1 * (bbox.max.x - bbox.min.x) +
        d.u1 * (bbox.max.x - bbox.min.x) * 0.8 := by
    simp only [padCenterX, xRange, margin]
    ring
  have hcy : padCenterY bbox d.u2 =
      bbox.min.y + 0.1 * (bbox.max.y - bbox.min.y) +
        d.u2 * (bbox.max.y - bbox.min.y) * 0.8 := by
    simp only [padCenterY, yRange, margin]
    ring
  have hsize : padSize bbox d.u3 =
      clamp (min (bbox.max.x - bbox.min.x) (bbox.max.y - bbox.min.y) * 0.2 *
        (0.2 + d.u3 * 0.8)) 10 50 := by
    simp only [padSize, padMaxSize, xRange, yRange, clamp]
    rw [max_min_distrib_left]
    norm_num
  simp only [generateRandomPad, specGeneratePad, padElevation, padSlopePercentage,
    zRange, hcx, hcy, hsize]

/-- Claim C9: with the random source injected, `generateRandomPad` is
deterministic: equal BoundingBoxes and equal draw assignments yield equal
Pad records in every field. -/
theorem C9_deterministic (b1 b2 : Bbox) (d1 d2 : Draws)
    (hb : b1 = b2) (hd : d1 = d2) :
    generateRandomPad b1 d1 = generateRandomPad b2 d2 := by
  rw [hb, hd]

/-- Witness for claim C9 on the 100 by 100 by 1 box with all draws zero. -/
theorem C9_deterministic_witness :
    generateRandomPad cexBbox cexDraws = generateRandomPad cexBbox cexDraws :=
  C9_deterministic cexBbox cexBbox cexDraws cexDraws rfl rfl

set_option maxHeartbeats 2000000 in
/-- Claim C10: on a terrain whose smaller horizontal range is at least 50,
the side length never exceeds maxSize, the half side length never exceeds
one tenth of the smaller range, and all 4 footprint corners stay within
the full bounding box footprint, for all draws in [0,1). -/
theorem C10_large_terrain (bbox : Bbox) (d : Draws)
    (hlarge : 50 ≤ min (xRange bbox) (yRange bbox)) (hd : ValidDraws d) :
    padSize bbox d.u3 ≤ padMaxSize bbox ∧
    padSize bbox d.u3 / 2 ≤ 0.1 * min (xRange bbox) (yRange bbox) ∧
    ∀ c ∈ (generateRandomPad bbox d).coordinates,
      bbox.min.x ≤ c.x ∧ c.x ≤ bbox.max.x ∧
      bbox.min.y ≤ c.y ∧ c.y ≤ bbox.max.y := by
  obtain ⟨⟨h1, h1l⟩, ⟨h2, h2l⟩, ⟨h3, h3l⟩, -, -, -⟩ := hd
  have hmx : min (xRange bbox) (yRange bbox) ≤ xRange bbox := min_le_left _ _
  have hmy : min (xRange bbox) (yRange bbox) ≤ yRange bbox := min_le_right _ _
  have hpme : padMaxSize bbox = min (xRange bbox) (yRange bbox) * 0.2 := rfl
  have hms : (10 : ℚ) ≤ padMaxSize bbox := by linarith
  have hvlt : padMaxSize bbox * (0.2 + d.u3 * 0.8) < padMaxSize bbox := by
    have hp := mul_pos (show (0 : ℚ) < 1 - d.u3 by linarith)
      (show (0 : ℚ) < padMaxSize bbox by linarith)
    nlinarith [hp]
  have hsle : padSize bbox d.u3 ≤ padMaxSize bbox := by
    simp only [padSize]
    exact max_le hms (le_trans (min_le_right _ _) hvlt.le)
  have hhalf : padSize bbox d.u3 / 2 ≤ 0.1 * min (xRange bbox) (yRange bbox) := by
    linarith
  have hs10 : (10 : ℚ) ≤ padSize bbox d.u3 := le_max_left _ _
  have hxe : xRange bbox = bbox.max.x - bbox.min.x := rfl
  have hye : yRange bbox = bbox.max.y - bbox.min.y := rfl
  have hxpos : (0 : ℚ) < xRange bbox := by linarith
  have hypos : (0 : ℚ) < yRange bbox := by linarith
  have hcxl : bbox.min.x + 0.1 * xRange bbox ≤ padCenterX bbox d.u1 := by
    simp only [padCenterX, margin]
    nlinarith [mul_nonneg h1 hxpos.le]
  have hcxu : padCenterX bbox d.u1 ≤ bbox.max.x - 0.1 * xRange bbox := by
    simp only [padCenterX, margin]
    nlinarith [mul_pos (by linarith : (0 : ℚ) < 1 - d.u1) hxpos]
  have hcyl : bbox.min.y + 0.1 * yRange bbox ≤ padCenterY bbox d.u2 := by
    simp only [padCenterY, margin]
    nlinarith [mul_nonneg h2 hypos.le]
  have hcyu : padCenterY bbox d.u2 ≤ bbox.max.y - 0.1 * yRange bbox := by
    simp only [padCenterY, margin]
    nlinarith [mul_pos (by linarith : (0 : ℚ) < 1 - d.u2) hypos]
  have hhx : padSize bbox d.u3 / 2 ≤ 0.1 * xRange bbox := by linarith
  have hhy : padSize bbox d.u3 / 2 ≤ 0.1 * yRange bbox := by linarith
  refine ⟨hsle, hhalf, ?_⟩
  intro c hc
  simp only [generateRandomPad, List.mem_cons, List.not_mem_nil, or_false] at hc
  rcases hc with rfl | rfl | rfl | rfl <;> refine ⟨?_, ?_, ?_, ?_⟩ <;>
    dsimp only <;> linarith

/-- Witness for claim C10 on the 100 by 100 by 1 box with all draws zero. -/
theorem C10_large_terrain_witness :
    padSize cexBbox cexDraws.u3 ≤ padMaxSize cexBbox ∧
    padSize cexBbox cexDraws.u3 / 2 ≤ 0.1 * min (xRange cexBbox) (yRange cexBbox) ∧
    ∀ c ∈ (generateRandomPad cexBbox cexDraws).coordinates,
      cexBbox.min.x ≤ c.x ∧ c.x ≤ cexBbox.max.x ∧
      cexBbox.min.y ≤ c.y ∧ c.y ≤ cexBbox.max.y :=
  C10_large_terrain cexBbox cexDraws
    (by norm_num [xRange, yRange, cexBbox]) cexDraws_valid

end TerrainPads
